import Mathlib

/-!
Verification model of the libweave/buffet device agent.

The development shallowly embeds the parts of the repository that the
stated properties are about: the persisted Settings document and the
GcdState machine, the OAuth2 token refresh of DeviceRegistrationInfo,
the two-phase claim/finalize registration protocol, the command
definition catalog merge, the cloud command update requests, the URL
construction helper GetServiceURL with WebParam encoding, and the
privet Manager startup and request dispatch (the latter two embedded
directly from privet_manager.cc, which is part of the sources).

Where only the unit tests or declarations of a function are part of
the sources, the definition is reconstructed from the specification
document; each such definition carries a doc comment starting with
Modelled from the spec.
-/

namespace Weave

/-! ## JSON values

Dynamic JSON values, as used for command definitions and request
bodies. A mutual pair of inductives is used so that all functions
below are structurally recursive. Field order is the insertion order
of the underlying dictionary; two objects that are equal as JSON
dictionaries are written here with a fixed field order.
-/

mutual

inductive JVal where
  | str : String → JVal
  | int : Int → JVal
  | boolean : Bool → JVal
  | obj : JFields → JVal

inductive JFields where
  | nil : JFields
  | cons : String → JVal → JFields → JFields

end

/-- Converts a list of key-value pairs into a JSON field sequence. -/
def JFields.ofList : List (String × JVal) → JFields
  | [] => JFields.nil
  | (k, v) :: rest => JFields.cons k v (JFields.ofList rest)

/-- Builds a JSON object from a list of key-value pairs. -/
def jobj (l : List (String × JVal)) : JVal :=
  JVal.obj (JFields.ofList l)

/-- Looks up a key in a JSON field sequence. -/
def fieldsLookup : JFields → String → Option JVal
  | JFields.nil, _ => none
  | JFields.cons k v rest, key => if k == key then some v else fieldsLookup rest key

/-- Removes the first binding of a key from a JSON field sequence. -/
def fieldsRemove : JFields → String → JFields
  | JFields.nil, _ => JFields.nil
  | JFields.cons k v rest, key =>
    if k == key then rest else JFields.cons k v (fieldsRemove rest key)

/-- Collects the keys of a JSON field sequence in order. -/
def fieldsKeys : JFields → List String
  | JFields.nil => []
  | JFields.cons k _ rest => k :: fieldsKeys rest

/-- Looks up a key inside an optional JSON object; any non-object yields none. -/
def jchild : Option JVal → String → Option JVal
  | some (JVal.obj l), key => fieldsLookup l key
  | _, _ => none

/-! ## Key-wise deep override

Modelled from the spec: the vendor entry inherits all base fields and
overrides parameters, results and progress by key-wise deep override
(the object schema merge of the command catalog, whose implementation
is not under src; only its unit test is). For two objects the result
keeps every base field, replacing a field by the recursive override
whenever the overriding object binds the same key, and appends the
remaining overriding fields; any non-object override replaces the
base value.
-/

mutual

def deepOverride : JVal → JVal → JVal
  | JVal.obj b, JVal.obj o => JVal.obj (deepOverrideFields b o)
  | _, o => o

def deepOverrideFields : JFields → JFields → JFields
  | JFields.nil, o => o
  | JFields.cons k v rest, o =>
    match fieldsLookup o k with
    | some ov => JFields.cons k (deepOverride v ov) (deepOverrideFields rest (fieldsRemove o k))
    | none => JFields.cons k v (deepOverrideFields rest o)

end

/-! ## Command definition catalog

Modelled from the spec: the catalog is the merge of a base definition
tree and a vendor tree (component name mapped to command name mapped
to a definition holding parameters, progress, results and
minimalRole). A schema written as a bare type name string is
shorthand for an object with a type field. Empty schema sections are
omitted from the exported definitions, as asserted by the
RegisterDevice unit test in src.
-/

/-- Modelled from the spec: a bare type name string is schema shorthand for an
object with a single type field. -/
def normalizeSchema : JVal → JVal
  | JVal.str s => JVal.obj (JFields.cons "type" (JVal.str s) JFields.nil)
  | v => v

/-- Applies schema shorthand normalization to every value of a schema map. -/
def normalizeSchemaFields : JFields → JFields
  | JFields.nil => JFields.nil
  | JFields.cons k v rest => JFields.cons k (normalizeSchema v) (normalizeSchemaFields rest)

/-- Applies schema shorthand normalization to a schema map object. -/
def normalizeSchemaMap : JVal → JVal
  | JVal.obj l => JVal.obj (normalizeSchemaFields l)
  | v => v

/-- Tests whether a command definition key names a schema section. -/
def isSchemaSection (k : String) : Bool :=
  k == "parameters" || k == "progress" || k == "results"

/-- Normalizes the schema sections of a command definition. -/
def normalizeDefFields : JFields → JFields
  | JFields.nil => JFields.nil
  | JFields.cons k v rest =>
    JFields.cons k (if isSchemaSection k then normalizeSchemaMap v else v)
      (normalizeDefFields rest)

/-- Normalizes a command definition object. -/
def normalizeDef : JVal → JVal
  | JVal.obj l => JVal.obj (normalizeDefFields l)
  | v => v

/-- Tests for an empty JSON object. -/
def isEmptyObj : JVal → Bool
  | JVal.obj JFields.nil => true
  | _ => false

/-- Drops empty object sections from a command definition, as the exported
catalog omits empty parameters, progress and results dictionaries. -/
def pruneDefFields : JFields → JFields
  | JFields.nil => JFields.nil
  | JFields.cons k v rest =>
    if isEmptyObj v then pruneDefFields rest else JFields.cons k v (pruneDefFields rest)

/-- Prunes a command definition object. -/
def pruneDef : JVal → JVal
  | JVal.obj l => JVal.obj (pruneDefFields l)
  | v => v

/-- Modelled from the spec: merges one vendor command definition with its base
counterpart when present; the vendor entry inherits all base fields and
overrides the schema sections by key-wise deep override. -/
def mergeCommandDef (baseDef : Option JVal) (vendorDef : JVal) : JVal :=
  match baseDef with
  | some bd => pruneDef (deepOverride (normalizeDef bd) (normalizeDef vendorDef))
  | none => pruneDef (normalizeDef vendorDef)

/-- Merges the commands of one component of the vendor tree. -/
def mergeComponentCmds (baseComp : Option JVal) : JFields → JFields
  | JFields.nil => JFields.nil
  | JFields.cons name d rest =>
    JFields.cons name (mergeCommandDef (jchild baseComp name) d)
      (mergeComponentCmds baseComp rest)

/-- Merges one component object of the vendor tree. -/
def mergeComponent (baseComp : Option JVal) (vendorComp : JVal) : JVal :=
  match vendorComp with
  | JVal.obj cmds => JVal.obj (mergeComponentCmds baseComp cmds)
  | v => v

/-- Merges all components of the vendor tree against the base tree. -/
def mergeCatalogComponents (baseTree : JVal) : JFields → JFields
  | JFields.nil => JFields.nil
  | JFields.cons cname comp rest =>
    JFields.cons cname (mergeComponent (jchild (some baseTree) cname) comp)
      (mergeCatalogComponents baseTree rest)

/-- Modelled from the spec: the merged command catalog exported for the
registration payload. The components and command names are those of the
vendor tree; each vendor entry is merged with its base counterpart. -/
def mergeCatalog (baseTree vendorTree : JVal) : JVal :=
  match vendorTree with
  | JVal.obj comps => JVal.obj (mergeCatalogComponents baseTree comps)
  | v => v

/-! ## WebParam encoding and URL construction

Modelled from the spec: the form body encoding is RFC 3986 percent
encoding of reserved characters over UTF-8 bytes, with a plus sign
for space; GetServiceURL appends the subpath to the base service URL
and, when parameters are given, a query string of WebParam encoded
key-value pairs (the implementation of
DeviceRegistrationInfo::GetServiceURL is not under src; only its
header comment and its unit test are).
-/

/-- Uppercase hexadecimal digit of a number below sixteen. -/
def hexDigit (n : Nat) : Char :=
  if n < 10 then Char.ofNat (48 + n) else Char.ofNat (55 + n)

/-- Percent escape of one byte. -/
def byteHex (b : Nat) : String :=
  String.singleton '%' ++ String.singleton (hexDigit (b / 16)) ++
    String.singleton (hexDigit (b % 16))

/-- UTF-8 byte sequence of a character, computed from its code point. -/
def utf8Bytes (c : Char) : List Nat :=
  let n := c.toNat
  if n < 128 then [n]
  else if n < 2048 then [192 + n / 64, 128 + n % 64]
  else if n < 65536 then [224 + n / 4096, 128 + (n / 64) % 64, 128 + n % 64]
  else [240 + n / 262144, 128 + (n / 4096) % 64, 128 + (n / 64) % 64, 128 + n % 64]

/-- Characters left unescaped by RFC 3986 percent encoding. -/
def isUnreservedChar (c : Char) : Bool :=
  c.isAlphanum || c == '-' || c == '_' || c == '.' || c == '~'

/-- Percent encodes one character; space becomes a plus sign. -/
def percentEncodeChar (c : Char) : String :=
  if isUnreservedChar c then String.singleton c
  else if c == ' ' then "+"
  else String.join ((utf8Bytes c).map byteHex)

/-- Percent encodes a string over its UTF-8 bytes. -/
def percentEncode (s : String) : String :=
  String.join (s.toList.map percentEncodeChar)

/-- Modelled from the spec: WebParamsEncode formats key-value pairs as an
application/x-www-form-urlencoded body. -/
def WebParamsEncode (params : List (String × String)) : String :=
  String.intercalate "&" (params.map (fun p => percentEncode p.1 ++ "=" ++ percentEncode p.2))

/-- Appends a subpath and an optional WebParam encoded query string to a base URL. -/
def buildURL (base subpath : String) (params : List (String × String)) : String :=
  base ++ subpath ++ (if params.isEmpty then "" else "?" ++ WebParamsEncode params)

/-! ## Settings and GcdState -/

/-- Persisted settings document of the device, as loaded by Config. Fields not
needed by the stated properties are omitted. -/
structure Settings where
  client_id : String
  client_secret : String
  api_key : String
  oauth_url : String
  service_url : String
  oem_name : String
  model_name : String
  model_id : String
  name : String
  description : String
  location : String
  cloud_id : String
  refresh_token : String
  robot_account : String
  secret : String
  disable_security : Bool
  deriving Repr, DecidableEq

/-- Cloud connection state of the device. -/
inductive GcdState where
  | unconfigured
  | invalidCredentials
  | disabled
  | offline
  | connecting
  | connected
  deriving Repr, DecidableEq

/-- Modelled from the spec: GetServiceURL appends the subpath and the WebParam
encoded query parameters to the service base URL. -/
def GetServiceURL (s : Settings) (subpath : String) (params : List (String × String)) : String :=
  buildURL s.service_url subpath params

/-- Modelled from the spec: GetOAuthURL appends the subpath and the WebParam
encoded query parameters to the OAuth base URL. -/
def GetOAuthURL (s : Settings) (subpath : String) (params : List (String × String)) : String :=
  buildURL s.oauth_url subpath params

/-- Modelled from the spec: the state derived from a loaded settings document.
If the refresh token is empty the device is unconfigured, otherwise it starts
connecting and schedules a token refresh. -/
def gcdStateFromSettings (s : Settings) : GcdState :=
  if s.refresh_token == "" then GcdState.unconfigured else GcdState.connecting

/-- Modelled from the spec: registration credentials are present when the
persisted triple of refresh token, cloud id and robot account is non-empty. -/
def hasRegistrationCredentials (s : Settings) : Bool :=
  !(s.refresh_token == "") && !(s.cloud_id == "") && !(s.robot_account == "")

/-! ## Token refresh

Modelled from the spec: DeviceRegistrationInfo::RefreshAccessToken
posts a form encoded body with exactly the fields grant_type,
refresh_token, client_id and client_secret to the token endpoint of
the OAuth server. A success response caches the access token with a
wall-clock expiry and moves the state to connected. An OAuth error
response caches nothing and carries the server supplied code in the
oauth2 error domain; codes in the fatal classification table move the
state to invalid credentials with no retry, every other code leaves
the state connecting and schedules a backoff retry. The
implementation is not under src; only its unit tests are.
-/

/-- Authenticated form request sent to the Cloud OAuth endpoint. -/
structure HttpFormRequest where
  method : String
  url : String
  contentType : String
  formData : List (String × String)
  deriving Repr, DecidableEq

/-- Modelled from the spec: the token refresh request built from Settings. -/
def refreshTokenRequest (s : Settings) : HttpFormRequest :=
  { method := "POST"
    url := GetOAuthURL s "token" []
    contentType := "application/x-www-form-urlencoded"
    formData := [("grant_type", "refresh_token"),
                 ("refresh_token", s.refresh_token),
                 ("client_id", s.client_id),
                 ("client_secret", s.client_secret)] }

/-- Response of the OAuth token endpoint: either a granted token with its
lifetime in seconds, or an error body with the HTTP status and the value of
the error field. -/
inductive OAuthTokenResponse where
  | success (access_token : String) (expires_in : Nat)
  | oauthError (httpStatus : Nat) (code : String)
  deriving Repr, DecidableEq

/-- Modelled from the spec: OAuth error codes classified as fatal, which move
the device to invalid credentials. -/
def fatalOAuthCodes : List String :=
  ["invalid_grant", "invalid_client", "unauthorized_client", "access_denied",
   "invalid_request", "unsupported_grant_type"]

/-- Outcome of handling one token refresh response: the cached token and its
wall-clock expiry if any, the resulting GcdState, the surfaced error domain
and code if any, and whether a backoff retry is scheduled. -/
structure RefreshOutcome where
  cachedToken : Option String
  tokenExpiry : Option Nat
  state : GcdState
  errorDomain : Option String
  errorCode : Option String
  retryScheduled : Bool
  deriving Repr, DecidableEq

/-- Modelled from the spec: handling of a token refresh response received at
wall-clock time now, for a device that was connecting. -/
def handleRefreshResponse (now : Nat) (resp : OAuthTokenResponse) : RefreshOutcome :=
  match resp with
  | OAuthTokenResponse.success tok exp =>
    { cachedToken := some tok
      tokenExpiry := some (now + exp)
      state := GcdState.connected
      errorDomain := none
      errorCode := none
      retryScheduled := false }
  | OAuthTokenResponse.oauthError _ code =>
    if fatalOAuthCodes.contains code then
      { cachedToken := none
        tokenExpiry := none
        state := GcdState.invalidCredentials
        errorDomain := some "oauth2"
        errorCode := some code
        retryScheduled := false }
    else
      { cachedToken := none
        tokenExpiry := none
        state := GcdState.connecting
        errorDomain := some "oauth2"
        errorCode := some code
        retryScheduled := true }

/-! ## Registration protocol

Modelled from the spec: DeviceRegistrationInfo::RegisterDevice runs
the claim PATCH, the finalize POST and the authorization code token
exchange; no persistence occurs until the token exchange completes,
then a single Config transaction writes the cloud id, the refresh
token and the robot account; on any step failure no persisted change
occurs and the state returns to unconfigured with an error in the gcd
domain. The implementation is not under src; only its unit test is.
-/

/-- Relevant part of the enriched ticket returned by the claim PATCH. -/
structure TicketPatchResponse where
  deviceDraftId : String
  deriving Repr, DecidableEq

/-- Relevant part of the finalize response. -/
structure FinalizeResponse where
  deviceDraftId : String
  robotAccountEmail : String
  robotAccountAuthCode : String
  deriving Repr, DecidableEq

/-- Relevant part of the token exchange response. -/
structure TokenExchangeResponse where
  access_token : String
  refresh_token : String
  expires_in : Nat
  deriving Repr, DecidableEq

/-- Outcome of one registration run: the settings documents committed by
Config transactions during the run in order, the settings visible afterwards,
the resulting state, and the surfaced error domain if any. -/
structure RegisterOutcome where
  commits : List Settings
  settings : Settings
  state : GcdState
  errorDomain : Option String
  deriving Repr, DecidableEq

/-- Modelled from the spec: a registration run with the given step results;
none stands for a failed step, in which case the later steps never run. -/
def registerDevice (s : Settings) (_ticket : String)
    (patchResp : Option TicketPatchResponse)
    (finalizeResp : Option FinalizeResponse)
    (tokenResp : Option TokenExchangeResponse) : RegisterOutcome :=
  match patchResp with
  | none =>
    { commits := [], settings := s, state := GcdState.unconfigured, errorDomain := some "gcd" }
  | some p =>
    match finalizeResp with
    | none =>
      { commits := [], settings := s, state := GcdState.unconfigured, errorDomain := some "gcd" }
    | some f =>
      match tokenResp with
      | none =>
        { commits := [], settings := s, state := GcdState.unconfigured, errorDomain := some "gcd" }
      | some tok =>
        let persisted := { s with cloud_id := p.deviceDraftId,
                                  refresh_token := tok.refresh_token,
                                  robot_account := f.robotAccountEmail }
        { commits := [persisted]
          settings := persisted
          state := GcdState.connecting
          errorDomain := none }

/-! ## Cloud command updates

Modelled from the spec: per-command operations set_progress, complete
and cancel transition the command state machine and mint a PATCH
request to the command resource URL whose body describes the delta.
The implementation of CommandInstance and its cloud proxy is not
under src; only its unit tests are.
-/

/-- Lifecycle state of a command instance. -/
inductive CmdState where
  | queued
  | inProgress
  | paused
  | errorState
  | done
  | cancelled
  | aborted
  | expired
  deriving Repr, DecidableEq

/-- JSON name of a command state. -/
def cmdStateName : CmdState → String
  | CmdState.queued => "queued"
  | CmdState.inProgress => "inProgress"
  | CmdState.paused => "paused"
  | CmdState.errorState => "error"
  | CmdState.done => "done"
  | CmdState.cancelled => "cancelled"
  | CmdState.aborted => "aborted"
  | CmdState.expired => "expired"

/-- In-memory command instance; only the fields the stated properties need. -/
structure CommandInstance where
  id : String
  state : CmdState
  progress : Option JVal
  results : Option JVal

/-- PATCH request minted for a command update. -/
structure PatchCommandRequest where
  method : String
  url : String
  body : JVal

/-- URL of the command resource on the Cloud service. -/
def commandPatchUrl (s : Settings) (id : String) : String :=
  GetServiceURL s ("commands/" ++ id) []

/-- Modelled from the spec: set_progress is allowed while the command is in
progress or paused; it stores the progress value and mints a PATCH whose body
carries the state name and the progress object. -/
def commandSetProgress (s : Settings) (c : CommandInstance) (p : JVal) :
    Option (CommandInstance × PatchCommandRequest) :=
  match c.state with
  | CmdState.inProgress =>
    some ({ c with progress := some p },
      { method := "PATCH"
        url := commandPatchUrl s c.id
        body := jobj [("state", JVal.str "inProgress"), ("progress", p)] })
  | CmdState.paused =>
    some ({ c with progress := some p },
      { method := "PATCH"
        url := commandPatchUrl s c.id
        body := jobj [("state", JVal.str "paused"), ("progress", p)] })
  | _ => none

/-- Modelled from the spec: complete moves a command in progress to done,
stores the results and mints a PATCH whose body carries the done state and
the results object. -/
def commandComplete (s : Settings) (c : CommandInstance) (r : JVal) :
    Option (CommandInstance × PatchCommandRequest) :=
  match c.state with
  | CmdState.inProgress =>
    some ({ c with state := CmdState.done, results := some r },
      { method := "PATCH"
        url := commandPatchUrl s c.id
        body := jobj [("state", JVal.str "done"), ("results", r)] })
  | _ => none

/-- Modelled from the spec: cancel moves a non-terminal command to cancelled
and mints a PATCH whose body carries only the cancelled state. -/
def commandCancel (s : Settings) (c : CommandInstance) :
    Option (CommandInstance × PatchCommandRequest) :=
  match c.state with
  | CmdState.queued | CmdState.inProgress | CmdState.paused | CmdState.errorState =>
    some ({ c with state := CmdState.cancelled },
      { method := "PATCH"
        url := commandPatchUrl s c.id
        body := jobj [("state", JVal.str "cancelled")] })
  | _ => none

/-! ## Privet manager startup and request dispatch

These definitions embed privet_manager.cc, which is part of the
sources.
-/

/-- Result of privet Manager Start relevant to the stated properties: the
captured disable_security_ flag and whether a SaveDeviceSecret task was
posted. Embeds the conditional PostDelayedTask in Manager::Start, which runs
exactly when the stored secret is empty. -/
structure ManagerStartResult where
  disableSecurity : Bool
  secretWriteScheduled : Bool
  deriving Repr, DecidableEq

/-- Embeds privet Manager Start from privet_manager.cc: disable_security_ is
copied from the settings, and a SaveDeviceSecret task is scheduled exactly
when the stored device secret is empty. -/
def managerStart (s : Settings) : ManagerStartResult :=
  { disableSecurity := s.disable_security
    secretWriteScheduled := s.secret == "" }

/-- Modelled from the spec: the SecurityManager owns the device secret and
generates one on first start if the stored secret is absent; fresh stands for
the freshly generated secret (the SecurityManager implementation is not under
src). -/
def securityManagerSecret (stored fresh : String) : String :=
  if stored == "" then fresh else stored

/-- Embeds privet Manager SaveDeviceSecret from privet_manager.cc: a Config
transaction writes the secret held by the security manager into settings. -/
def saveDeviceSecret (s : Settings) (secret : String) : Settings :=
  { s with secret := secret }

/-- Incoming privet HTTP request, reduced to the parts the dispatch uses. -/
structure PrivetRequest where
  path : String
  authHeader : String
  data : String
  deriving Repr, DecidableEq

/-- Embeds the header rewrite in Manager PrivetRequestHandlerWithData from
privet_manager.cc: an empty Authorization header is replaced by the literal
Privet anonymous exactly when disable_security_ is set. -/
def effectiveAuthHeader (disableSecurity : Bool) (authHeader : String) : String :=
  if authHeader == "" && disableSecurity then "Privet anonymous" else authHeader

/-- Embeds the dispatch in Manager PrivetRequestHandlerWithData: the path and
the effective Authorization header passed on to PrivetHandler HandleRequest
(the parsed body dictionary is forwarded unchanged). -/
def privetDispatchArgs (disableSecurity : Bool) (req : PrivetRequest) : String × String :=
  (req.path, effectiveAuthHeader disableSecurity req.authHeader)

/-! ## Concrete test data

Constants of the unit tests in src, used as concrete inputs.
-/

/-- Service base URL of the unit tests. -/
def kServiceURL : String := "http://gcd.server.com/"

/-- OAuth base URL of the unit tests. -/
def kOAuthURL : String := "http://oauth.server.com/"

/-- API key of the unit tests. -/
def kApiKey : String := "GOadRdTf9FERf0k4w6EFOof56fUJ3kFDdFL3d7f"

/-- OAuth client id of the unit tests. -/
def kClientId : String :=
  "123543821385-sfjkjshdkjhfk234sdfsdfkskdfkjh7f.apps.googleusercontent.com"

/-- OAuth client secret of the unit tests. -/
def kClientSecret : String := "5sdGdGlfolGlrFKfdFlgP6FG"

/-- Cloud device id of the unit tests. -/
def kDeviceId : String := "4a7ea2d1-b331-1e1f-b206-e863c7635196"

/-- Claim ticket id of the unit tests. -/
def kClaimTicketId : String := "RTcUE"

/-- Access token of the unit tests. -/
def kAccessToken : String :=
  "ya29.1.AADtN_V-dLUM-sVZ0qVjG9Dxm5NgdS9JMx_JLUqhC9bED_YFjzHZtYt65ZzXCS35NMAeaVZDei530-w0yE2urpQ"

/-- Refresh token of the unit tests. -/
def kRefreshToken : String := "1/zQmxR6PKNvhcxf9SjXUrCjcmCrcqRKXctc6cp1nI-GQ"

/-- Robot account authorization code of the unit tests. -/
def kRobotAccountAuthCode : String :=
  "4/Mf_ujEhPejVhOq-OxW9F5cSOnWzx.YgciVjTYGscRshQV0ieZDAqiTIjMigI"

/-- Robot account email of the unit tests. -/
def kRobotAccountEmail : String :=
  "6ed0b3f54f9bd619b942f4ad2441c252@clouddevices.gserviceaccount.com"

/-- Settings after loading the defaults of the unit test fixture; no stored
settings document, hence no credentials and no secret. -/
def testDefaultSettings : Settings :=
  { client_id := kClientId
    client_secret := kClientSecret
    api_key := kApiKey
    oauth_url := kOAuthURL
    service_url := kServiceURL
    oem_name := "Coffee Pot Maker"
    model_name := "Pot v1"
    model_id := "AAAAA"
    name := "Coffee Pot"
    description := "Easy to clean"
    location := "Kitchen"
    cloud_id := ""
    refresh_token := ""
    robot_account := ""
    secret := ""
    disable_security := false }

/-- Settings after loading the stored document of the unit test fixture,
which carries the refresh token, the cloud id and the robot account. -/
def testLoadedSettings : Settings :=
  { testDefaultSettings with
      refresh_token := kRefreshToken
      cloud_id := kDeviceId
      robot_account := kRobotAccountEmail }

/-- Base command definition tree of the RegisterDevice unit test. -/
def testBaseTree : JVal :=
  jobj [("base", jobj [
    ("reboot", jobj [
      ("parameters", jobj [("delay", JVal.str "integer")]),
      ("minimalRole", JVal.str "user"),
      ("results", jobj [])]),
    ("shutdown", jobj [
      ("parameters", jobj []),
      ("minimalRole", JVal.str "user"),
      ("results", jobj [])])])]

/-- Vendor command definition tree of the RegisterDevice unit test. -/
def testVendorTree : JVal :=
  jobj [("base", jobj [
    ("reboot", jobj [
      ("parameters", jobj [("delay", jobj [("minimum", JVal.int 10)])]),
      ("minimalRole", JVal.str "user"),
      ("results", jobj [])])]),
   ("robot", jobj [
    ("_jump", jobj [
      ("parameters", jobj [("_height", JVal.str "integer")]),
      ("minimalRole", JVal.str "user"),
      ("results", jobj [])])])]

/-- Command definition payload the RegisterDevice unit test expects to be sent
as deviceDraft commandDefs. -/
def expectedMergedDefs : JVal :=
  jobj [("base", jobj [
    ("reboot", jobj [
      ("parameters", jobj [("delay", jobj [("type", JVal.str "integer"), ("minimum", JVal.int 10)])]),
      ("minimalRole", JVal.str "user")])]),
   ("robot", jobj [
    ("_jump", jobj [
      ("parameters", jobj [("_height", jobj [("type", JVal.str "integer")])]),
      ("minimalRole", JVal.str "user")])])]

/-- Base-only shutdown command definition of the RegisterDevice unit test. -/
def testShutdownDef : JVal :=
  jobj [("parameters", jobj []),
        ("minimalRole", JVal.str "user"),
        ("results", jobj [])]

/-- Command instance of the update unit tests: id 1234, in progress. -/
def testCommand : CommandInstance :=
  { id := "1234", state := CmdState.inProgress, progress := none, results := none }

/-- Settings that already hold a device secret. -/
def testSecretSettings : Settings :=
  { testDefaultSettings with secret := "ZXhhbXBsZS1kZXZpY2Utc2VjcmV0" }

/-- Claim PATCH response of the RegisterDevice unit test. -/
def testTicketResponse : TicketPatchResponse :=
  { deviceDraftId := kDeviceId }

/-- Finalize response of the RegisterDevice unit test. -/
def testFinalizeResponse : FinalizeResponse :=
  { deviceDraftId := kDeviceId
    robotAccountEmail := kRobotAccountEmail
    robotAccountAuthCode := kRobotAccountAuthCode }

/-- Token exchange response of the RegisterDevice unit test. -/
def testTokenResponse : TokenExchangeResponse :=
  { access_token := kAccessToken
    refresh_token := kRefreshToken
    expires_in := 3600 }

/-- Settings the RegisterDevice unit test expects to be persisted. -/
def testRegisteredSettings : Settings :=
  { testDefaultSettings with
      cloud_id := kDeviceId
      refresh_token := kRefreshToken
      robot_account := kRobotAccountEmail }

/-! ## Theorems -/

/-- Helper: merging the commands of a component preserves the command names. -/
theorem fieldsKeys_mergeComponentCmds (bc : Option JVal) :
    ∀ cmds, fieldsKeys (mergeComponentCmds bc cmds) = fieldsKeys cmds
  | JFields.nil => rfl
  | JFields.cons k v rest => by
    simp [mergeComponentCmds, fieldsKeys, fieldsKeys_mergeComponentCmds bc rest]

/-- Helper: merging the catalog preserves the component names. -/
theorem fieldsKeys_mergeCatalogComponents (b : JVal) :
    ∀ comps, fieldsKeys (mergeCatalogComponents b comps) = fieldsKeys comps
  | JFields.nil => rfl
  | JFields.cons k v rest => by
    simp [mergeCatalogComponents, fieldsKeys, fieldsKeys_mergeCatalogComponents b rest]

/-- C1: when the PATCH, finalize and token-exchange steps of a registration
run all succeed, exactly one settings document is committed, and it is the
original settings with precisely the triple cloud_id set to the deviceDraft id
returned by the server, refresh_token set to the token exchange refresh token
and robot_account set to the finalize robotAccountEmail; the state afterwards
is connecting. When any step fails, no settings document is committed and the
settings are unchanged. -/
theorem registerDevice_atomic_persistence (s : Settings) (t : String)
    (p : TicketPatchResponse) (f : FinalizeResponse) (tok : TokenExchangeResponse)
    (po : Option TicketPatchResponse) (fo : Option FinalizeResponse)
    (ko : Option TokenExchangeResponse)
    (hfail : po = none ∨ fo = none ∨ ko = none) :
    (registerDevice s t (some p) (some f) (some tok)).commits =
      [{ s with cloud_id := p.deviceDraftId, refresh_token := tok.refresh_token,
                robot_account := f.robotAccountEmail }]
    ∧ (registerDevice s t (some p) (some f) (some tok)).settings =
      { s with cloud_id := p.deviceDraftId, refresh_token := tok.refresh_token,
               robot_account := f.robotAccountEmail }
    ∧ (registerDevice s t (some p) (some f) (some tok)).state = GcdState.connecting
    ∧ (registerDevice s t po fo ko).commits = []
    ∧ (registerDevice s t po fo ko).settings = s := by
  have hf : (registerDevice s t po fo ko).commits = []
      ∧ (registerDevice s t po fo ko).settings = s := by
    rcases hfail with h | h | h
    · subst h; exact ⟨rfl, rfl⟩
    · subst h
      cases po with
      | none => exact ⟨rfl, rfl⟩
      | some p2 => exact ⟨rfl, rfl⟩
    · subst h
      cases po with
      | none => exact ⟨rfl, rfl⟩
      | some p2 =>
        cases fo with
        | none => exact ⟨rfl, rfl⟩
        | some f2 => exact ⟨rfl, rfl⟩
  exact ⟨rfl, rfl, rfl, hf.1, hf.2⟩

/-- C1 witness: on the concrete data of the RegisterDevice unit test the
successful run commits exactly the registered settings, and a run whose PATCH
step fails commits nothing and leaves the settings unchanged. -/
theorem registerDevice_atomic_persistence_witness :
    (registerDevice testDefaultSettings kClaimTicketId (some testTicketResponse)
        (some testFinalizeResponse) (some testTokenResponse)).commits =
      [testRegisteredSettings]
    ∧ (registerDevice testDefaultSettings kClaimTicketId none
        (some testFinalizeResponse) (some testTokenResponse)).commits = []
    ∧ (registerDevice testDefaultSettings kClaimTicketId none
        (some testFinalizeResponse) (some testTokenResponse)).settings = testDefaultSettings :=
  have h := registerDevice_atomic_persistence testDefaultSettings kClaimTicketId
    testTicketResponse testFinalizeResponse testTokenResponse
    none (some testFinalizeResponse) (some testTokenResponse) (Or.inl rfl)
  ⟨h.1, h.2.2.2.1, h.2.2.2.2⟩

/-- C2: a token refresh answered with HTTP 400 and the OAuth error code
invalid_grant caches no access token, surfaces an error of domain oauth2 with
code invalid_grant, moves the state to invalid credentials and schedules no
retry. -/
theorem tokenRefresh_invalid_grant (now : Nat) :
    handleRefreshResponse now (OAuthTokenResponse.oauthError 400 "invalid_grant") =
      { cachedToken := none, tokenExpiry := none, state := GcdState.invalidCredentials,
        errorDomain := some "oauth2", errorCode := some "invalid_grant",
        retryScheduled := false } := rfl

/-- C3: a token refresh answered with an OAuth error code outside the fatal
classification table caches no token, keeps the state connecting, schedules a
backoff retry, and surfaces an error of domain oauth2 carrying the server
supplied code. -/
theorem tokenRefresh_unknown_code_transient (now status : Nat) (code : String)
    (h : fatalOAuthCodes.contains code = false) :
    handleRefreshResponse now (OAuthTokenResponse.oauthError status code) =
      { cachedToken := none, tokenExpiry := none, state := GcdState.connecting,
        errorDomain := some "oauth2", errorCode := some code, retryScheduled := true } := by
  have hm : code ∉ fatalOAuthCodes := by simpa using h
  simp [handleRefreshResponse, hm]

/-- C3 witness: the code unable_to_authenticate of the
CheckAuthenticationFailure unit test is not in the fatal table, and its
handling keeps the state connecting with an oauth2 error carrying it. -/
theorem tokenRefresh_unknown_code_transient_witness :
    fatalOAuthCodes.contains "unable_to_authenticate" = false
    ∧ handleRefreshResponse 0 (OAuthTokenResponse.oauthError 400 "unable_to_authenticate") =
      { cachedToken := none, tokenExpiry := none, state := GcdState.connecting,
        errorDomain := some "oauth2", errorCode := some "unable_to_authenticate",
        retryScheduled := true } :=
  ⟨rfl, tokenRefresh_unknown_code_transient 0 400 "unable_to_authenticate" rfl⟩

/-- C4: the token refresh request is a POST to the token subpath of the OAuth
base URL, form encoded, whose fields are exactly grant_type=refresh_token and
the refresh token, client id and client secret from Settings; a 200 response
carrying an access token AT valid for 3600 seconds caches AT with expiry
now + 3600 and moves the state to connected; the loaded test settings hold
registration credentials. -/
theorem tokenRefresh_request_and_success (s : Settings) (now : Nat) :
    refreshTokenRequest s =
      { method := "POST", url := s.oauth_url ++ "token",
        contentType := "application/x-www-form-urlencoded",
        formData := [("grant_type", "refresh_token"), ("refresh_token", s.refresh_token),
                     ("client_id", s.client_id), ("client_secret", s.client_secret)] }
    ∧ handleRefreshResponse now (OAuthTokenResponse.success "AT" 3600) =
      { cachedToken := some "AT", tokenExpiry := some (now + 3600),
        state := GcdState.connected, errorDomain := none, errorCode := none,
        retryScheduled := false }
    ∧ hasRegistrationCredentials testLoadedSettings = true := by
  refine ⟨?_, rfl, by decide⟩
  simp [refreshTokenRequest, GetOAuthURL, buildURL]

/-- C5 counterexample: on the command trees of the RegisterDevice unit test
the base tree contains the base-only command shutdown, yet the merged catalog
sent as deviceDraft commandDefs does not contain it, refuting the clause that
every base-only entry is included in the merge. -/
theorem mergeCatalog_base_only_dropped :
    jchild (jchild (some testBaseTree) "base") "shutdown" = some testShutdownDef
    ∧ jchild (jchild (some (mergeCatalog testBaseTree testVendorTree)) "base") "shutdown" =
      none :=
  ⟨rfl, rfl⟩

/-- C5 amended: the merged catalog contains exactly the components and command
names of the vendor tree; a vendor entry with a base counterpart inherits all
base fields with its schema sections deep overridden key-wise, and
underscore-prefixed vendor commands appear with their own schemas. On the
RegisterDevice unit test trees the merge equals the payload the test expects:
the base reboot delay schema is the integer type tightened with minimum 10,
the robot _jump command keeps its own schema, and no base-only command
appears. -/
theorem mergeCatalog_vendor_driven :
    (∀ b comps, fieldsKeys (mergeCatalogComponents b comps) = fieldsKeys comps)
    ∧ (∀ bc cmds, fieldsKeys (mergeComponentCmds bc cmds) = fieldsKeys cmds)
    ∧ mergeCatalog testBaseTree testVendorTree = expectedMergedDefs := by
  exact ⟨fun b comps => fieldsKeys_mergeCatalogComponents b comps,
    fun bc cmds => fieldsKeys_mergeComponentCmds bc cmds, rfl⟩

/-- C6: for the command with id 1234 in state inProgress, set_progress with
the progress object mints a PATCH to the commands/1234 service URL whose body
is exactly the state inProgress with that progress object; complete mints a
body of exactly state done with the results object; cancel mints a body of
exactly state cancelled. -/
theorem commandUpdate_patch_bodies :
    commandSetProgress testLoadedSettings testCommand (jobj [("progress", JVal.int 18)]) =
      some ({ testCommand with progress := some (jobj [("progress", JVal.int 18)]) },
        { method := "PATCH", url := "http://gcd.server.com/commands/1234",
          body := jobj [("state", JVal.str "inProgress"),
                        ("progress", jobj [("progress", JVal.int 18)])] })
    ∧ commandComplete testLoadedSettings testCommand (jobj [("status", JVal.str "Ok")]) =
      some ({ testCommand with state := CmdState.done,
                               results := some (jobj [("status", JVal.str "Ok")]) },
        { method := "PATCH", url := "http://gcd.server.com/commands/1234",
          body := jobj [("state", JVal.str "done"),
                        ("results", jobj [("status", JVal.str "Ok")])] })
    ∧ commandCancel testLoadedSettings testCommand =
      some ({ testCommand with state := CmdState.cancelled },
        { method := "PATCH", url := "http://gcd.server.com/commands/1234",
          body := jobj [("state", JVal.str "cancelled")] }) :=
  ⟨rfl, rfl, rfl⟩

/-- C7: a loaded settings document with an empty refresh token leaves the
device unconfigured, and one with a non-empty refresh token moves it to
connecting. -/
theorem gcdState_after_settings_load (s : Settings) :
    (s.refresh_token = "" → gcdStateFromSettings s = GcdState.unconfigured)
    ∧ (s.refresh_token ≠ "" → gcdStateFromSettings s = GcdState.connecting) := by
  constructor
  · intro h; simp [gcdStateFromSettings, h]
  · intro h; simp [gcdStateFromSettings, h]

/-- C7 witness: the default settings of the unit test fixture, which hold no
refresh token, yield unconfigured; the loaded document with the refresh token,
cloud id and robot account yields connecting. -/
theorem gcdState_after_settings_load_witness :
    gcdStateFromSettings testDefaultSettings = GcdState.unconfigured
    ∧ gcdStateFromSettings testLoadedSettings = GcdState.connecting :=
  ⟨(gcdState_after_settings_load testDefaultSettings).1 rfl,
   (gcdState_after_settings_load testLoadedSettings).2 (by decide)⟩

/-- C8: with the service base URL and api key of the unit tests, GetServiceURL
with subpath registrationTickets and the WebParam encoded pairs key=K and
restart=true returns exactly the base URL with the subpath and the query
string appended; with no subpath and no parameters it returns the base URL
unchanged. -/
theorem getServiceURL_query (s : Settings) :
    GetServiceURL testDefaultSettings "registrationTickets"
      [("key", "K"), ("restart", "true")] =
      "http://gcd.server.com/registrationTickets?key=K&restart=true"
    ∧ GetServiceURL s "" [] = s.service_url := by
  constructor
  · rfl
  · simp [GetServiceURL, buildURL]

/-- C9: on startup with an empty persisted device secret, the privet Manager
schedules the SaveDeviceSecret task and that task writes the freshly
generated secret of the security manager into settings through a Config
transaction; with a secret already present, no such write is scheduled. -/
theorem deviceSecret_persisted_iff_absent (s : Settings) (fresh : String) :
    (s.secret = "" →
      (managerStart s).secretWriteScheduled = true
      ∧ saveDeviceSecret s (securityManagerSecret s.secret fresh) =
        { s with secret := fresh })
    ∧ (s.secret ≠ "" → (managerStart s).secretWriteScheduled = false) := by
  constructor
  · intro h
    constructor
    · simp [managerStart, h]
    · simp [saveDeviceSecret, securityManagerSecret, h]
  · intro h; simp [managerStart, h]

/-- C9 witness: the default settings with no secret schedule the write and
persist the generated secret; settings that already hold a secret schedule no
write. -/
theorem deviceSecret_persisted_iff_absent_witness :
    (managerStart testDefaultSettings).secretWriteScheduled = true
    ∧ saveDeviceSecret testDefaultSettings
        (securityManagerSecret testDefaultSettings.secret "r4nd0m-fresh-secret") =
      { testDefaultSettings with secret := "r4nd0m-fresh-secret" }
    ∧ (managerStart testSecretSettings).secretWriteScheduled = false :=
  have h1 := (deviceSecret_persisted_iff_absent testDefaultSettings "r4nd0m-fresh-secret").1 rfl
  have h2 := (deviceSecret_persisted_iff_absent testSecretSettings "r4nd0m-fresh-secret").2
    (by decide)
  ⟨h1.1, h1.2, h2⟩

/-- C10: with security disabled, a privet request with an empty Authorization
header is dispatched to the handler with exactly the arguments of the same
request carrying the header Privet anonymous; with security enabled, the
empty header reaches the handler unchanged. -/
theorem privet_empty_auth_header_dispatch (path data : String) :
    privetDispatchArgs true { path := path, authHeader := "", data := data } =
      privetDispatchArgs true
        { path := path, authHeader := "Privet anonymous", data := data }
    ∧ privetDispatchArgs false { path := path, authHeader := "", data := data } =
      (path, "") :=
  ⟨rfl, rfl⟩

end Weave
